import Mathlib

/-!
Verification of the benchexec tool-adapter modules
(`benchexec/tools/{cbmc,esbmc,map2check,two_ls,ultimate}.py`).

Output lines are modelled as `List Char` (Python `str`); verdict/status
values are Lean `String`s.  The small string helpers below mirror the
Python string primitives used by the adapters (`str.find`, `in`,
`str.startswith`, `str.endswith`, `str.strip`, `"\n".join`).
-/

/-- Characters stripped by Python `str.strip()` with no argument. -/
def isPyWs (c : Char) : Bool :=
  c = ' ' || c = '\t' || c = '\n' || c = '\r' || c = '\x0b' || c = '\x0c'

/-- A line of tool output (Python `str`). -/
abbrev Line := List Char

/-- Python `str.strip()`: drop whitespace from both ends. -/
def pyStrip (s : Line) : Line :=
  ((s.dropWhile isPyWs).reverse.dropWhile isPyWs).reverse

/-- Python `w.isPrefixOf`-style check: `isPre w t` iff `w` is a prefix of `t`
(mirrors `str.startswith`). -/
def isPre : Line → Line → Bool
  | [], _ => true
  | _ :: _, [] => false
  | a :: as, b :: bs => a = b && isPre as bs

/-- Python `text.find(word)`: index of the first occurrence of `w` in `t`,
`none` when absent (Python returns `-1`). -/
def findSub : Line → Line → Option Nat
  | [], w => if isPre w [] then some 0 else none
  | c :: t, w => if isPre w (c :: t) then some 0 else (findSub t w).map (· + 1)

/-- Python `w in t` (substring containment). -/
def containsSub (t w : Line) : Bool := (findSub t w).isSome

/-- Python `t.endswith(w)`. -/
def endsWithL (t w : Line) : Bool := isPre w.reverse t.reverse

/-- Python `"\n".join(lines)`. -/
def joinLines : List Line → Line
  | [] => []
  | [l] => l
  | l :: ls => l ++ '\n' :: joinLines ls

/-! Verdict constants from `benchexec.result` (that module is not under
`src/`; the string values are the canonical benchexec ones and only their
distinctness matters for the classifiers). -/

def RESULT_TRUE_PROP : String := "true"
def RESULT_UNKNOWN : String := "unknown"
def RESULT_ERROR : String := "ERROR"
def RESULT_DONE : String := "done"
def RESULT_FALSE_REACH : String := "false(unreach-call)"
def RESULT_FALSE_DEREF : String := "false(valid-deref)"
def RESULT_FALSE_FREE : String := "false(valid-free)"
def RESULT_FALSE_MEMTRACK : String := "false(valid-memtrack)"
def RESULT_FALSE_MEMCLEANUP : String := "false(valid-memcleanup)"
def RESULT_FALSE_OVERFLOW : String := "false(no-overflow)"
def RESULT_FALSE_TERMINATION : String := "false(termination)"

namespace esbmc

/-- Helper loop of `Tool.allInText` (`esbmc.py` lines 70-79): Python keeps a
single `index` variable, reassigning it to `text[index:].find(word)` for each
word (note: the found index is relative to the slice, and the scan is not
advanced past the matched word). -/
def allInTextGo (text : Line) : List Line → Nat → Bool
  | [], _ => true
  | w :: ws, index =>
    match findSub (text.drop index) w with
    | none => false
    | some i => allInTextGo text ws i

/-- `Tool.allInText(words, text)` from `esbmc.py`. -/
def allInText (words : List Line) (text : Line) : Bool :=
  allInTextGo text words 0

/-- Modelled from the spec: the search the spec ascribes to `allInText` --
every word found in the given order, each match beginning strictly after the
end of the previous word's match (non-overlapping sequential search). -/
def orderedSearch (text : Line) : List Line → Nat → Bool
  | [], _ => true
  | w :: ws, start =>
    match findSub (text.drop start) w with
    | none => false
    | some j => orderedSearch text ws (start + j + w.length)

/-- `Tool.cmdline` from `esbmc.py`: `[executable, "-p", propertyfile] ++
options ++ [inputfile]`.  Elements are `Option String` because Python puts
the raw `propertyfile` (possibly `None`) into the list; `none` models a
`None` element.  The `assert len(tasks) == 1` is the `Option` in the result. -/
def cmdline (executable : String) (options : List String) (tasks : List String)
    (propertyfile : Option String) : Option (List (Option String)) :=
  match tasks with
  | [inputfile] =>
    some ([some executable, some "-p", propertyfile] ++ options.map some ++ [some inputfile])
  | _ => none

/-- `Tool.determine_result` from `esbmc.py` (lines 39-66).  `returncode` and
`returnsignal` appear in the Python signature but are never read. -/
def determine_result (_returncode : Int) (_returnsignal : Nat) (output0 : List Line)
    (isTimeout : Bool) : String :=
  let output := joinLines output0
  let status :=
    if allInText ["FALSE_DEREF".data] output then RESULT_FALSE_DEREF
    else if allInText ["FALSE_FREE".data] output then RESULT_FALSE_FREE
    else if allInText ["FALSE_MEMTRACK".data] output then RESULT_FALSE_MEMTRACK
    else if allInText ["FALSE_OVERFLOW".data] output then RESULT_FALSE_OVERFLOW
    else if allInText ["FALSE_TERMINATION".data] output then RESULT_FALSE_TERMINATION
    else if allInText ["FALSE".data] output then RESULT_FALSE_REACH
    else if containsSub output "TRUE".data then RESULT_TRUE_PROP
    else if containsSub output "DONE".data then RESULT_DONE
    else RESULT_UNKNOWN
  if status = RESULT_UNKNOWN then
    if isTimeout then "TIMEOUT"
    else if endsWithL output "error".data || endsWithL output "error\n".data then "ERROR"
    else status
  else status

end esbmc

namespace map2check

/-- `Tool.determine_result` from `map2check.py` (lines 77-123).  `version` is
the value of `self._get_version()` (6 or 7 in the source, decided by a
filesystem probe; passed here as a parameter).  `returncode` and
`returnsignal` are never read. -/
def determine_result (version : Nat) (_returncode : Int) (_returnsignal : Nat)
    (output0 : List Line) (isTimeout : Bool) : String :=
  match output0.getLast? with
  | none => RESULT_UNKNOWN
  | some last =>
    let output := pyStrip last
    if version > 6 then
      if endsWithL output "TRUE".data then RESULT_TRUE_PROP
      else if containsSub output "FALSE".data then
        if containsSub output "FALSE_MEMTRACK".data then RESULT_FALSE_MEMTRACK
        else if containsSub output "FALSE_MEMCLEANUP".data then RESULT_FALSE_MEMCLEANUP
        else if containsSub output "FALSE_DEREF".data then RESULT_FALSE_DEREF
        else if containsSub output "FALSE_FREE".data then RESULT_FALSE_FREE
        else if containsSub output "FALSE_OVERFLOW".data then RESULT_FALSE_OVERFLOW
        else RESULT_FALSE_REACH
      else if endsWithL output "UNKNOWN".data then RESULT_UNKNOWN
      else if isTimeout then "TIMEOUT"
      else "ERROR"
    else if version = 6 then
      if endsWithL output "TRUE".data then RESULT_TRUE_PROP
      else if containsSub output "FALSE".data then
        -- the v6 chain has no final else: status keeps its initial UNKNOWN
        if containsSub output "FALSE(valid-memtrack)".data then RESULT_FALSE_MEMTRACK
        else if containsSub output "FALSE(valid-deref)".data then RESULT_FALSE_DEREF
        else if containsSub output "FALSE(valid-free)".data then RESULT_FALSE_FREE
        else RESULT_UNKNOWN
      else if endsWithL output "UNKNOWN".data then RESULT_UNKNOWN
      else if isTimeout then "TIMEOUT"
      else "ERROR"
    else RESULT_UNKNOWN

end map2check

namespace two_ls

/-- `Tool.determine_result` from `two_ls.py` (lines 35-65). -/
def determine_result (returncode : Int) (returnsignal : Nat) (output : List Line)
    (isTimeout : Bool) : String :=
  if (returnsignal = 9 ∨ returnsignal = 15) ∧ isTimeout then "TIMEOUT"
  else if returnsignal = 9 then "OUT OF MEMORY"
  else if returnsignal ≠ 0 then "ERROR(SIGNAL " ++ Nat.repr returnsignal ++ ")"
  else if returncode = 0 then RESULT_TRUE_PROP
  else if returncode = 10 then
    match output.getLast? with
    | some last =>
      let result_str := pyStrip last
      if result_str = "FALSE(valid-memtrack)".data then RESULT_FALSE_MEMTRACK
      else if result_str = "FALSE(valid-deref)".data then RESULT_FALSE_DEREF
      else if result_str = "FALSE(valid-free)".data then RESULT_FALSE_FREE
      else if result_str = "FALSE(no-overflow)".data then RESULT_FALSE_OVERFLOW
      else if result_str = "FALSE(termination)".data then RESULT_FALSE_TERMINATION
      else if result_str = "FALSE(valid-memcleanup)".data then RESULT_FALSE_MEMCLEANUP
      else RESULT_FALSE_REACH
    | none => RESULT_FALSE_REACH
  else RESULT_UNKNOWN

end two_ls

namespace cbmc

/-- The data `Tool.parse_XML` (`cbmc.py` lines 45-103) reads out of the
`ElementTree` produced by `ElementTree.fromstringlist`:

* `cproverStatus` -- `tree.findtext("cprover-status")`;
* `errorMessages` -- the `findtext("text")` of every `message` node whose
  `type` attribute is `"ERROR"`, in document order;
* `failureReason` -- the reason obtained from
  `tree.find("goto_trace").find("failure")` (`findtext("reason")`, falling
  back to the `reason` attribute when that is falsy); `none` models every
  access path that raises (missing nodes, or both reason sources absent --
  all such exceptions are caught by the enclosing `except`). -/
structure CproverXML where
  cproverStatus : Option String
  errorMessages : List (Option String)
  failureReason : Option String

/-- Body of the `try` block of `parse_XML`: either a status string, or
`Except.error ()` for any raised exception (failed `assert`, missing nodes).
The XML document itself is the already-parsed `CproverXML`. -/
def parse_XML_tree (t : CproverXML) (returncode : Int) (options : List String) :
    Except Unit String :=
  match t.cproverStatus with
  | none =>
    match t.errorMessages with
    | [] => .ok "INVALID OUTPUT"
    | msg :: _ =>
      if msg = some "Out of memory" then .ok "OUT OF MEMORY"
      else if msg = some "SAT checker ran out of memory" then .ok "OUT OF MEMORY"
      else
        match msg with
        | some s => if s ≠ "" then .ok ("ERROR (" ++ s ++ ")") else .ok "ERROR"
        | none => .ok "ERROR"
  | some st =>
    if st = "FAILURE" then
      if returncode = 10 then  -- assert returncode == 10
        match t.failureReason with
        | some reason =>
          if containsSub reason.data "unwinding assertion".data then .ok RESULT_UNKNOWN
          else .ok RESULT_FALSE_REACH
        | none => .error ()
      else .error ()
    else if st = "SUCCESS" then
      if returncode = 0 then  -- assert returncode == 0
        if "--unwinding-assertions" ∈ options then .ok RESULT_TRUE_PROP
        else .ok RESULT_UNKNOWN
      else .error ()
    else .ok st

/-- The `except Exception` handler of `parse_XML`.  Note `"Minisat::..."
in output` is Python list membership: some line is exactly that string. -/
def parse_XML_onError (isTimeout : Bool) (output : List Line) : String :=
  if isTimeout then "TIMEOUT"
  else if "Minisat::OutOfMemoryException".data ∈ output then "OUT OF MEMORY"
  else "INVALID OUTPUT"

/-- `Tool.parse_XML` from `cbmc.py`.  `xml` is the result of
`ElementTree.fromstringlist` over the sanitized output lines: `none` when
parsing raises. -/
def parse_XML (xml : Option CproverXML) (returncode : Int) (isTimeout : Bool)
    (options : List String) (output : List Line) : String :=
  match xml with
  | none => parse_XML_onError isTimeout output
  | some t =>
    match parse_XML_tree t returncode options with
    | .ok s => s
    | .error _ => parse_XML_onError isTimeout output

/-- `Tool.determine_result` from `cbmc.py` (lines 105-145).  `options` is
`self.options` (as recorded by `cmdline`); `xmlOf` is the external XML parser
(`ElementTree.fromstringlist` composed with `sanitizeXML`), returning `none`
when it raises. -/
def determine_result (options : List String) (xmlOf : List Line → Option CproverXML)
    (returncode : Int) (returnsignal : Nat) (output : List Line) (isTimeout : Bool) :
    String :=
  if returnsignal = 0 ∧ (returncode = 0 ∨ returncode = 10) then
    if "--xml-ui" ∈ options then parse_XML (xmlOf output) returncode isTimeout options output
    else
      match output.getLast? with
      | some last =>
        -- SV-COMP mode
        let result_str := pyStrip last
        if result_str = "TRUE".data then RESULT_TRUE_PROP
        else if containsSub result_str "FALSE".data then
          if result_str = "FALSE(valid-memtrack)".data then RESULT_FALSE_MEMTRACK
          else if result_str = "FALSE(valid-deref)".data then RESULT_FALSE_DEREF
          else if result_str = "FALSE(valid-free)".data then RESULT_FALSE_FREE
          else if result_str = "FALSE(no-overflow)".data then RESULT_FALSE_OVERFLOW
          else if result_str = "FALSE(valid-memcleanup)".data then RESULT_FALSE_MEMCLEANUP
          else RESULT_FALSE_REACH
        else if "UNKNOWN".data ∈ output then RESULT_UNKNOWN
        else RESULT_ERROR
      | none => RESULT_ERROR
  else if returncode = 64 ∧ "Usage error!\n".data ∈ output then "INVALID ARGUMENTS"
  else if returncode = 6 ∧ "Out of memory\n".data ∈ output then "OUT OF MEMORY"
  else if returncode = 6 ∧ "SAT checker ran out of memory\n".data ∈ output then "OUT OF MEMORY"
  else RESULT_ERROR

/-- `Tool.cmdline` from `cbmc.py` (lines 35-43): returns the pair
(`self.options` as recorded for `determine_result`, the argument vector).
`if propertyfile:` is a Python truthiness test, so `some ""` takes the
`--xml-ui` branch. -/
def cmdline (executable : String) (options : List String) (tasks : List String)
    (propertyfile : Option String) : List String × List String :=
  let options' :=
    match propertyfile with
    | some pf =>
      if pf ≠ "" then options ++ ["--propertyfile", pf]
      else if "--xml-ui" ∉ options then options ++ ["--xml-ui"] else options
    | none => if "--xml-ui" ∉ options then options ++ ["--xml-ui"] else options
  (options', [executable] ++ options' ++ tasks)

end cbmc

namespace ultimate

/-- The distinct exceptions raised by `ultimate.py` (spec taxonomy names in
parentheses): `FileNotFoundError` (LauncherNotFound), `BenchExecException`
from `_ultimate_version` (VersionNegotiationFailed), `ValueError`,
`UnsupportedFeatureException` (UnsupportedInvocation), and `AssertionError`
from `__assert_cmdline` / `assert propertyfile` (MalformedCommandLine). -/
inductive PyExc where
  | fileNotFound
  | benchExecException
  | valueError
  | unsupportedFeature
  | assertionError
deriving DecidableEq, Repr

/-- Simplified `os.path.dirname`: the characters before the last `/`
(empty when there is no `/`).  The adapters only thread this value into
other paths, so the corner cases of the real `dirname` are irrelevant. -/
def dirname (p : String) : String :=
  String.mk (((p.data.reverse.dropWhile (fun c => c != '/')).drop 1).reverse)

/-- Simplified `os.path.join` for a relative second component. -/
def pathJoin (d f : String) : String :=
  if d = "" then f
  else if endsWithL d.data "/".data then d ++ f
  else d ++ "/" ++ f

/-- `_LAUNCHER_JARS` from `ultimate.py` line 28. -/
def _LAUNCHER_JARS : List String :=
  ["plugins/org.eclipse.equinox.launcher_1.3.100.v20150511-1540.jar"]

/-- Loop of `_get_current_launcher_jar`: first jar of `_LAUNCHER_JARS` that
exists on disk (`isfile` is the external `os.path.isfile`). -/
def findJar (isfile : String → Bool) (ultimatedir : String) :
    List String → Except PyExc String
  | [] => .error .fileNotFound
  | jar :: rest =>
    let launcher_jar := pathJoin ultimatedir jar
    if isfile launcher_jar then .ok launcher_jar else findJar isfile ultimatedir rest

/-- `UltimateTool._get_current_launcher_jar` (`ultimate.py` lines 166-175):
raises `FileNotFoundError` when no candidate jar exists. -/
def _get_current_launcher_jar (isfile : String → Bool) (executable : String) :
    Except PyExc String :=
  findJar isfile (dirname executable) _LAUNCHER_JARS

/-- `UltimateTool._ultimate_version` (`ultimate.py` lines 90-125).  The two
probe commands (API 2 first, then API 1) are run by the external
`_query_ultimate_version`, modelled by `probe : Nat → String` indexed by the
API number, returning `""` on any probe failure.  On success the negotiated
version and the final `self.api` are returned; when every probe fails the
code raises `BenchExecException`. -/
def _ultimate_version (isfile : String → Bool) (executable : String)
    (probe : Nat → String) : Except PyExc (String × Nat) :=
  match _get_current_launcher_jar isfile executable with
  | .error e => .error e
  | .ok _ =>
    if probe 2 ≠ "" then .ok (probe 2, 2)
    else if probe 1 ≠ "" then .ok (probe 1, 1)
    else .error .benchExecException

/-- `UltimateTool._requires_ultimate_data` (`ultimate.py` lines 191-200):
`not (int(major) == 0 and int(minor) < 2 and int(patch) < 24)` for
non-SVCOMP17 versions.  The string splitting of `version` into the three
integers is elided (the parsed components are the parameters). -/
def _requires_ultimate_data (isSvcomp17 : Bool) (major minor patch : Int) : Bool :=
  if isSvcomp17 then false
  else !(major == 0 && minor < 2 && patch < 24)

/-- Modelled from the spec: strict semantic `major.minor.patch` ordering
(lexicographic), the ordering the spec says `_requires_ultimate_data`
thresholds on. -/
def semverLt (a b : Int × Int × Int) : Bool :=
  a.1 < b.1 || (a.1 == b.1 && (a.2.1 < b.2.1 || (a.2.1 == b.2.1 && a.2.2 < b.2.2)))

/-- `UltimateTool.__assert_cmdline` (`ultimate.py` lines 307-309):
`assert all(cmdline)` -- every element must be truthy (non-empty). -/
def assert_cmdline (v : List String) : Except PyExc (List String) :=
  if v.all (fun s => s != "") then .ok v else .error .assertionError

/-- The caller-visible `options` list after `cmdline` returns
(`ultimate.py` lines 207-211): `options.remove(_OPTION_NO_WRAPPER)` mutates
the caller's list, removing the first occurrence. -/
def cmdlineOptionsAfter (options0 : List String) : List String :=
  if "--force-no-wrapper" ∈ options0 then options0.erase "--force-no-wrapper" else options0

/-- Data-directory argument block of the `-tc` branch (`ultimate.py` lines
258-288).  `options1` is the option list after `-ea` removal; `ddir` is
`os.path.join(os.path.dirname(executable), "data")`.  The two `ValueError`
raises cover API 1; an API number other than 1 or 2 adds nothing. -/
def dataArgs (requiresData : Bool) (api : Nat) (options1 : List String) (ddir : String) :
    Except PyExc (List String) :=
  if requiresData then
    if "-ultimatedata" ∉ options1 ∧ "-data" ∉ options1 then
      if api = 2 then .ok ["-data", "@noDefault", "-ultimatedata", ddir]
      else if api = 1 then .error .valueError
      else .ok []
    else if "-ultimatedata" ∈ options1 ∧ "-data" ∉ options1 then
      if api = 2 then .ok ["-data", "@noDefault"]
      else if api = 1 then .error .valueError
      else .ok []
    else .ok []
  else
    if "-data" ∉ options1 then
      if api = 2 ∨ api = 1 then .ok ["-data", ddir] else .ok []
    else .ok []

/-- Branch body of `UltimateTool.cmdline` (`ultimate.py` lines 213-305)
building the raw (unvalidated) argument vector, after the
`--force-no-wrapper` handling: `options` and `propertyfile` are the
already-adjusted values.  Negotiated context (`isSvcomp17`, `requiresData`,
`api`, `javaPath`) and the external `isfile` are parameters.  `memlimit` is
`rlimits.get(MEMLIMIT, None)`; `if mem_bytes:` is a truthiness test, so
`some 0` adds no `-Xmx`. -/
def cmdlineRaw (isSvcomp17 requiresData : Bool) (api : Nat) (javaPath : String)
    (isfile : String → Bool) (executable : String) (options : List String)
    (tasks : List String) (propertyfile : Option String) (memlimit : Option Nat) :
    Except PyExc (List String) :=
  if isSvcomp17 then
    match propertyfile with
    | some pf =>
      if pf ≠ "" then  -- assert propertyfile (truthiness)
        .ok ([executable, pf]
          ++ options.filter (fun o => !(o == "--full-output" || o == "--architecture"))
          ++ ["--full-output"] ++ tasks)
      else .error .assertionError
    | none => .error .assertionError
  else
    match propertyfile with
    | some pf =>
      -- self._uses_propertyfile: use the old wrapper script
      .ok ([executable, "--spec", pf]
        ++ (if tasks = [] then [] else "--file" :: tasks) ++ options)
    | none =>
      if "-tc" ∈ options ∨ "--toolchain" ∈ options then
        match _get_current_launcher_jar isfile executable with
        | .error e => .error e
        | .ok jar =>
          let options1 := if "-ea" ∈ options then options.filter (fun e => e != "-ea") else options
          let base := [javaPath] ++ (if "-ea" ∈ options then ["-ea"] else [])
            ++ (match memlimit with
                | some m => if m ≠ 0 then ["-Xmx" ++ Nat.repr m] else []
                | none => [])
            ++ ["-Xss4m", "-jar", jar]
          match dataArgs requiresData api options1 (pathJoin (dirname executable) "data") with
          | .error e => .error e
          | .ok ds =>
            .ok (base ++ ds ++ options1 ++ (if tasks = [] then [] else "-i" :: tasks))
      else .error .unsupportedFeature

/-- The effective property file after the `--force-no-wrapper` handling
(`ultimate.py` lines 206-211): with the flag present, `propertyfile` is set
to `None`. -/
def cmdlinePropertyAfter (options0 : List String) (propertyfile0 : Option String) :
    Option String :=
  if "--force-no-wrapper" ∈ options0 then none else propertyfile0

/-- Result component of `UltimateTool.cmdline`: every returning branch of the
source validates its vector with `__assert_cmdline` before returning. -/
def cmdlineResult (isSvcomp17 requiresData : Bool) (api : Nat) (javaPath : String)
    (isfile : String → Bool) (executable : String) (options0 : List String)
    (tasks : List String) (propertyfile0 : Option String) (memlimit : Option Nat) :
    Except PyExc (List String) :=
  match cmdlineRaw isSvcomp17 requiresData api javaPath isfile executable
      (cmdlineOptionsAfter options0) tasks (cmdlinePropertyAfter options0 propertyfile0)
      memlimit with
  | .error e => .error e
  | .ok v => assert_cmdline v

/-- `UltimateTool.cmdline`: the pair of (the caller's `options` list as it is
after the call, reflecting the `remove` mutation) and the outcome (argument
vector or raised exception). -/
def cmdline (isSvcomp17 requiresData : Bool) (api : Nat) (javaPath : String)
    (isfile : String → Bool) (executable : String) (options0 : List String)
    (tasks : List String) (propertyfile0 : Option String) (memlimit : Option Nat) :
    List String × Except PyExc (List String) :=
  (cmdlineOptionsAfter options0,
   cmdlineResult isSvcomp17 requiresData api javaPath isfile executable options0 tasks
     propertyfile0 memlimit)

/-- `UltimateTool._determine_result_with_propertyfile` (`ultimate.py` lines
414-441): first-match line-prefix scan. -/
def _determine_result_with_propertyfile : List Line → String
  | [] => RESULT_UNKNOWN
  | line :: rest =>
    if isPre "FALSE(valid-free)".data line then RESULT_FALSE_FREE
    else if isPre "FALSE(valid-deref)".data line then RESULT_FALSE_DEREF
    else if isPre "FALSE(valid-memtrack)".data line then RESULT_FALSE_MEMTRACK
    else if isPre "FALSE(valid-memcleanup)".data line then RESULT_FALSE_MEMCLEANUP
    else if isPre "FALSE(TERM)".data line then RESULT_FALSE_TERMINATION
    else if isPre "FALSE(OVERFLOW)".data line then RESULT_FALSE_OVERFLOW
    else if isPre "FALSE".data line then RESULT_FALSE_REACH
    else if isPre "TRUE".data line then RESULT_TRUE_PROP
    else if isPre "UNKNOWN".data line then RESULT_UNKNOWN
    else if isPre "ERROR".data line then
      if isPre "ERROR: INVALID WITNESS FILE".data line then
        RESULT_ERROR ++ " (invalid witness file)"
      else RESULT_ERROR
    else _determine_result_with_propertyfile rest

end ultimate

/-! Helper lemmas about the string-search primitives. -/

theorem findSub_isPre {w : Line} :
    ∀ {t : Line} {j : Nat}, findSub t w = some j → isPre w (t.drop j) = true := by
  intro t
  induction t with
  | nil =>
    intro j h
    simp only [findSub] at h
    split at h
    · cases h
      simpa using ‹isPre w [] = true›
    · exact absurd h (by simp)
  | cons c t ih =>
    intro j h
    simp only [findSub] at h
    split at h
    next hp =>
      cases h
      simpa using hp
    next hp =>
      obtain ⟨j', hj', rfl⟩ : ∃ j', findSub t w = some j' ∧ j' + 1 = j := by
        cases hfs : findSub t w with
        | none => simp [hfs] at h
        | some k => exact ⟨k, rfl, by simpa [hfs] using h⟩
      simpa using ih hj'

theorem findSub_of_isPre_drop {w : Line} :
    ∀ {t : Line} {k : Nat}, isPre w (t.drop k) = true →
      ∃ j, findSub t w = some j ∧ j ≤ k := by
  intro t
  induction t with
  | nil =>
    intro k h
    simp only [List.drop_nil] at h
    exact ⟨0, by simp [findSub, h], Nat.zero_le _⟩
  | cons c t ih =>
    intro k h
    cases k with
    | zero =>
      refine ⟨0, ?_, Nat.le_refl 0⟩
      simp only [List.drop_zero] at h
      simp [findSub, h]
    | succ k =>
      by_cases hp : isPre w (c :: t) = true
      · exact ⟨0, by simp [findSub, hp], Nat.zero_le _⟩
      · obtain ⟨j, hj, hle⟩ := ih (by simpa using h)
        exact ⟨j + 1, by simp [findSub, hp, hj], Nat.succ_le_succ hle⟩

theorem isPre_append_left :
    ∀ {u v s : Line}, isPre (u ++ v) s = true → isPre u s = true := by
  intro u
  induction u with
  | nil => intro v s _; simp [isPre]
  | cons a u ih =>
    intro v s h
    cases s with
    | nil => simp [isPre] at h
    | cons b s' =>
      simp only [List.cons_append, isPre, Bool.and_eq_true] at h ⊢
      exact ⟨h.1, ih h.2⟩

theorem containsSub_append_left {t u v : Line}
    (h : containsSub t (u ++ v) = true) : containsSub t u = true := by
  simp only [containsSub, Option.isSome_iff_exists] at h
  obtain ⟨j, hj⟩ := h
  have h1 : isPre (u ++ v) (t.drop j) = true := findSub_isPre hj
  have h2 : isPre u (t.drop j) = true := isPre_append_left h1
  obtain ⟨j', hj', _⟩ := findSub_of_isPre_drop h2
  simp [containsSub, hj']

theorem isPre_comparable :
    ∀ {s u v : Line}, isPre u s = true → isPre v s = true →
      isPre u v = true ∨ isPre v u = true := by
  intro s
  induction s with
  | nil =>
    intro u v hu _
    cases u with
    | nil => left; simp [isPre]
    | cons a as => simp [isPre] at hu
  | cons c s' ih =>
    intro u v hu hv
    cases u with
    | nil => left; simp [isPre]
    | cons a u' =>
      cases v with
      | nil => right; simp [isPre]
      | cons b v' =>
        simp only [isPre, Bool.and_eq_true, decide_eq_true_eq] at hu hv
        obtain ⟨rfl, hu'⟩ := hu
        obtain ⟨rfl, hv'⟩ := hv
        rcases ih hu' hv' with h | h
        · left; simp [isPre, h]
        · right; simp [isPre, h]

theorem allInText_singleton (w t : Line) :
    esbmc.allInText [w] t = containsSub t w := by
  simp only [esbmc.allInText, esbmc.allInTextGo, List.drop_zero, containsSub]
  cases h : findSub t w <;> simp [h, esbmc.allInTextGo]

/-- C3: evaluation of `_requires_ultimate_data` at the failing inputs.  The
code reports the data directory as required for version 0.0.24 although
0.0.24 precedes the threshold 0.1.24 in semantic order, while the later
version 0.1.23 is reported as not requiring it -- so the predicate is
neither the claimed threshold function of ≥ 0.1.24 nor monotone. -/
theorem claimC3_threshold_violation :
    ultimate._requires_ultimate_data false 0 0 24 = true
    ∧ ultimate._requires_ultimate_data false 0 1 23 = false
    ∧ ultimate.semverLt (0, 0, 24) (0, 1, 23) = true
    ∧ ultimate.semverLt (0, 0, 24) (0, 1, 24) = true := by decide

/-- C4: `allInText` evaluated at the failing input.  The words
`["b", "b", "a"]` do not occur in `"ab"` in the given order by the
non-overlapping strictly-after-the-end sequential search the spec (and the
function's own docstring) describe -- `orderedSearch` rejects -- yet
`allInText` returns `True`, because the scan reassigns `index` to the
position of the match inside the previous slice instead of advancing past
the match. -/
theorem claimC4_allInText_order_violation :
    esbmc.allInText ["b".data, "b".data, "a".data] "ab".data = true
    ∧ esbmc.orderedSearch "ab".data ["b".data, "b".data, "a".data] 0 = false
    ∧ esbmc.allInText ["a".data, "a".data] "a".data = true
    ∧ esbmc.orderedSearch "a".data ["a".data, "a".data] 0 = false := by decide

/-- C10: the Map2Check classifier returns `UNKNOWN` on an empty output
sequence, for every version, exit code, signal and timeout flag (the
`output[-1]` access is guarded by the early return). -/
theorem claimC10_map2check_empty_output (version : Nat) (returncode : Int)
    (returnsignal : Nat) (isTimeout : Bool) :
    map2check.determine_result version returncode returnsignal [] isTimeout
      = RESULT_UNKNOWN := rfl

/-- C1 counterexample: the claim quantifies over all four dialects, but the
ESBMC classifier maps an output containing `FALSE(valid-memtrack)` to plain
`FALSE_REACH` (its specific markers are spelled `FALSE_MEMTRACK` etc., so
only the generic `FALSE` marker matches). -/
theorem claimC1_counterexample :
    containsSub (joinLines ["FALSE(valid-memtrack)".data]) "FALSE(valid-memtrack)".data = true
    ∧ esbmc.determine_result 0 0 ["FALSE(valid-memtrack)".data] false = RESULT_FALSE_REACH
    ∧ RESULT_FALSE_REACH ≠ RESULT_FALSE_MEMTRACK := by decide

/-- C1 (amended): specificity ordering holds in each dialect for markers in
that dialect's own matching convention: (1) CBMC SV-COMP mode (signal 0,
exit code 0 or 10, no `--xml-ui`): a last line that strips to exactly
`FALSE(valid-memtrack)` yields `FALSE_MEMTRACK`; (2) ESBMC: an output
containing `FALSE_MEMTRACK` never yields plain `FALSE_REACH`; (3) Map2Check
v6: a last line containing `FALSE(valid-memtrack)` (and not ending in
`TRUE`) yields `FALSE_MEMTRACK`; (4) Ultimate property-file mode: a line
starting with `FALSE(valid-memtrack)` classifies as `FALSE_MEMTRACK`, never
as the generic `FALSE` verdict, because the specific prefixes are tested
first. -/
theorem claimC1_specificity_amended :
    (∀ (options : List String) (xmlOf : List Line → Option cbmc.CproverXML) (rc : Int)
       (out : List Line) (l : Line) (isT : Bool),
       "--xml-ui" ∉ options → (rc = 0 ∨ rc = 10) →
       pyStrip l = "FALSE(valid-memtrack)".data →
       cbmc.determine_result options xmlOf rc 0 (out ++ [l]) isT = RESULT_FALSE_MEMTRACK)
    ∧ (∀ (rc : Int) (sig : Nat) (out : List Line) (isT : Bool),
       containsSub (joinLines out) "FALSE_MEMTRACK".data = true →
       esbmc.determine_result rc sig out isT ≠ RESULT_FALSE_REACH)
    ∧ (∀ (rc : Int) (sig : Nat) (out : List Line) (l : Line) (isT : Bool),
       containsSub (pyStrip l) "FALSE(valid-memtrack)".data = true →
       endsWithL (pyStrip l) "TRUE".data = false →
       map2check.determine_result 6 rc sig (out ++ [l]) isT = RESULT_FALSE_MEMTRACK)
    ∧ (∀ (l : Line) (rest : List Line),
       isPre "FALSE(valid-memtrack)".data l = true →
       ultimate._determine_result_with_propertyfile (l :: rest) = RESULT_FALSE_MEMTRACK) := by
  refine ⟨?_, ?_, ?_, ?_⟩
  · -- CBMC SV-COMP last-line mode
    intro options xmlOf rc out l isT hxml hrc hl
    simp only [cbmc.determine_result, List.getLast?_concat, hl]
    rw [if_pos ⟨trivial, hrc⟩, if_neg hxml]
    rw [if_neg (by decide), if_pos (by decide), if_pos trivial]
  · -- ESBMC ordered-substring mode
    intro rc sig out isT hmem
    have h3 : esbmc.allInText ["FALSE_MEMTRACK".data] (joinLines out) = true := by
      rw [allInText_singleton]; exact hmem
    simp only [esbmc.determine_result]
    by_cases h1 : esbmc.allInText ["FALSE_DEREF".data] (joinLines out) = true
    · rw [if_pos h1, if_neg (by decide)]; decide
    · rw [if_neg h1]
      by_cases h2 : esbmc.allInText ["FALSE_FREE".data] (joinLines out) = true
      · rw [if_pos h2, if_neg (by decide)]; decide
      · rw [if_neg h2, if_pos h3, if_neg (by decide)]; decide
  · -- Map2Check v6 last-line mode
    intro rc sig out l isT hmem hend
    have hsplit : "FALSE(valid-memtrack)".data = "FALSE".data ++ "(valid-memtrack)".data := by
      decide
    have hF : containsSub (pyStrip l) "FALSE".data = true :=
      containsSub_append_left (hsplit ▸ hmem)
    simp only [map2check.determine_result, List.getLast?_concat]
    rw [if_neg (by decide), if_pos (by decide), if_neg (by simp [hend]), if_pos hF,
      if_pos hmem]
  · -- Ultimate property-file line-prefix mode
    intro l rest h
    have hfree : isPre "FALSE(valid-free)".data l = false := by
      cases hc : isPre "FALSE(valid-free)".data l with
      | false => rfl
      | true =>
        rcases isPre_comparable hc h with hcomp | hcomp
        · exact absurd hcomp (by decide)
        · exact absurd hcomp (by decide)
    have hderef : isPre "FALSE(valid-deref)".data l = false := by
      cases hc : isPre "FALSE(valid-deref)".data l with
      | false => rfl
      | true =>
        rcases isPre_comparable hc h with hcomp | hcomp
        · exact absurd hcomp (by decide)
        · exact absurd hcomp (by decide)
    simp only [ultimate._determine_result_with_propertyfile]
    rw [if_neg (by simp [hfree]), if_neg (by simp [hderef]), if_pos h]

/-- C1 witness: the four amended specificity statements at concrete inputs. -/
theorem claimC1_witness :
    cbmc.determine_result [] (fun _ => none) 0 0 ([] ++ ["FALSE(valid-memtrack)".data]) false
      = RESULT_FALSE_MEMTRACK
    ∧ esbmc.determine_result 0 0 ["xx FALSE_MEMTRACK yy".data] false ≠ RESULT_FALSE_REACH
    ∧ map2check.determine_result 6 0 0 ([] ++ ["FALSE(valid-memtrack) seen".data]) false
      = RESULT_FALSE_MEMTRACK
    ∧ ultimate._determine_result_with_propertyfile ["FALSE(valid-memtrack) found".data]
      = RESULT_FALSE_MEMTRACK :=
  ⟨claimC1_specificity_amended.1 [] (fun _ => none) 0 [] _ false (by decide) (Or.inl rfl)
      (by decide),
   claimC1_specificity_amended.2.1 0 0 _ false (by decide),
   claimC1_specificity_amended.2.2.1 0 0 [] _ false (by decide) (by decide),
   claimC1_specificity_amended.2.2.2 _ [] (by decide)⟩

/-- C2 counterexample: the claim quantifies over every exit code and signal,
but for exit code 1 (signal 0, `--xml-ui` set, timeout flag true, XML parse
failing) `determine_result` never reaches the XML parser: the exit-code gate
routes the outcome to the final `else` and returns plain `ERROR`, not
`TIMEOUT`. -/
theorem claimC2_counterexample :
    cbmc.determine_result ["--xml-ui"] (fun _ => none) 1 0 ["<garbage".data] true
      = RESULT_ERROR
    ∧ RESULT_ERROR ≠ "TIMEOUT" := by decide

/-- C2 (amended): under the gate that reaches XML parsing (signal 0 and exit
code 0 or 10) with `--xml-ui` among the options, a parse failure with the
timeout flag set yields the `TIMEOUT` diagnostic, for every output. -/
theorem claimC2_xml_timeout_amended (options : List String)
    (xmlOf : List Line → Option cbmc.CproverXML) (rc : Int) (output : List Line)
    (hxml : "--xml-ui" ∈ options) (hrc : rc = 0 ∨ rc = 10)
    (hfail : xmlOf output = none) :
    cbmc.determine_result options xmlOf rc 0 output true = "TIMEOUT" := by
  simp only [cbmc.determine_result]
  rw [if_pos ⟨trivial, hrc⟩, if_pos hxml, hfail]
  rfl

/-- C2 witness: the amended statement at a concrete parse failure. -/
theorem claimC2_witness :
    cbmc.determine_result ["--xml-ui"] (fun _ => none) 0 0 [] true = "TIMEOUT" :=
  claimC2_xml_timeout_amended ["--xml-ui"] (fun _ => none) 0 [] (by decide) (Or.inl rfl) rfl

/-- C6 counterexample: the claim quantifies over every dialect, but the ESBMC
classifier ignores the signal entirely: with signal 9 and the timeout flag
set it still inspects the text and returns the `TRUE` verdict. -/
theorem claimC6_counterexample :
    esbmc.determine_result 0 9 ["TRUE".data] true = RESULT_TRUE_PROP
    ∧ RESULT_TRUE_PROP ≠ "TIMEOUT" := by decide

/-- C6 (amended): the signal gate holds for the 2LS classifier: signal 9 or
15 with the timeout flag gives `TIMEOUT`; signal 9 without it gives
`OUT OF MEMORY`; any other nonzero signal (including 15 without the timeout
flag) gives `ERROR(SIGNAL N)`; the output text influences the result only
when the signal is 0. -/
theorem claimC6_twols_signal_gate (returncode : Int) (returnsignal : Nat)
    (output : List Line) (isTimeout : Bool) :
    ((returnsignal = 9 ∨ returnsignal = 15) → isTimeout = true →
      two_ls.determine_result returncode returnsignal output isTimeout = "TIMEOUT")
    ∧ (returnsignal = 9 → isTimeout = false →
      two_ls.determine_result returncode returnsignal output isTimeout = "OUT OF MEMORY")
    ∧ (returnsignal ≠ 0 → returnsignal ≠ 9 → ¬(returnsignal = 15 ∧ isTimeout = true) →
      two_ls.determine_result returncode returnsignal output isTimeout
        = "ERROR(SIGNAL " ++ Nat.repr returnsignal ++ ")") := by
  refine ⟨?_, ?_, ?_⟩
  · intro hs ht
    simp only [two_ls.determine_result]
    rw [if_pos ⟨hs, ht⟩]
  · intro hs ht
    subst hs ht
    simp only [two_ls.determine_result]
    rw [if_neg (by simp), if_pos trivial]
  · intro h0 h9 h15
    have hgate : ¬((returnsignal = 9 ∨ returnsignal = 15) ∧ isTimeout = true) := by
      rintro ⟨h | h, ht⟩
      · exact h9 h
      · exact h15 ⟨h, ht⟩
    simp only [two_ls.determine_result]
    rw [if_neg hgate, if_neg h9, if_pos h0]

/-- C6 witness: the three gate cases of the amended statement at concrete
signals. -/
theorem claimC6_witness :
    two_ls.determine_result 0 9 [] true = "TIMEOUT"
    ∧ two_ls.determine_result 0 9 [] false = "OUT OF MEMORY"
    ∧ two_ls.determine_result 0 7 [] true = "ERROR(SIGNAL " ++ Nat.repr 7 ++ ")" :=
  ⟨(claimC6_twols_signal_gate 0 9 [] true).1 (Or.inl rfl) rfl,
   (claimC6_twols_signal_gate 0 9 [] false).2.1 rfl rfl,
   (claimC6_twols_signal_gate 0 7 [] true).2.2 (by decide) (by decide) (by decide)⟩

/-- C8 counterexample: the claim says "last non-empty line"; the code reads
the last line.  With output `["TRUE", ""]` (last non-empty line exactly
`TRUE`) the CBMC SV-COMP classifier strips the empty last line, matches
nothing, and returns `ERROR`, not the `TRUE` verdict. -/
theorem claimC8_counterexample :
    cbmc.determine_result [] (fun _ => none) 0 0 ["TRUE".data, []] false = RESULT_ERROR
    ∧ RESULT_ERROR ≠ RESULT_TRUE_PROP := by decide

/-- C8 (amended): in CBMC SV-COMP mode (signal 0, exit code 0 or 10, no
`--xml-ui`), it is the *last* line that decides: if it strips to exactly
`TRUE` the verdict is `TRUE`, and if it strips to exactly
`FALSE(valid-free)` the verdict is `FALSE_FREE`. -/
theorem claimC8_cbmc_lastline_amended (options : List String)
    (xmlOf : List Line → Option cbmc.CproverXML) (rc : Int) (out : List Line) (l : Line)
    (isT : Bool) (hxml : "--xml-ui" ∉ options) (hrc : rc = 0 ∨ rc = 10) :
    (pyStrip l = "TRUE".data →
      cbmc.determine_result options xmlOf rc 0 (out ++ [l]) isT = RESULT_TRUE_PROP)
    ∧ (pyStrip l = "FALSE(valid-free)".data →
      cbmc.determine_result options xmlOf rc 0 (out ++ [l]) isT = RESULT_FALSE_FREE) := by
  constructor
  · intro hl
    simp only [cbmc.determine_result, List.getLast?_concat, hl]
    rw [if_pos ⟨trivial, hrc⟩, if_neg hxml, if_pos trivial]
  · intro hl
    simp only [cbmc.determine_result, List.getLast?_concat, hl]
    rw [if_pos ⟨trivial, hrc⟩, if_neg hxml]
    rw [if_neg (by decide), if_pos (by decide), if_neg (by decide), if_neg (by decide),
      if_pos trivial]

/-- C8 witness: the amended statement at concrete last lines. -/
theorem claimC8_witness :
    cbmc.determine_result [] (fun _ => none) 10 0 ([] ++ ["  TRUE ".data]) false
      = RESULT_TRUE_PROP
    ∧ cbmc.determine_result [] (fun _ => none) 10 0 ([] ++ ["FALSE(valid-free)".data]) false
      = RESULT_FALSE_FREE :=
  ⟨(claimC8_cbmc_lastline_amended [] (fun _ => none) 10 [] _ false (by decide)
      (Or.inr rfl)).1 (by decide),
   (claimC8_cbmc_lastline_amended [] (fun _ => none) 10 [] _ false (by decide)
      (Or.inr rfl)).2 (by decide)⟩

/-- C5 counterexample: the claim quantifies over every adapter and explicitly
includes an absent property file, but ESBMC's `cmdline` performs no
validation: with `propertyfile=None` it returns a vector whose third element
is the `None` value. -/
theorem claimC5_counterexample :
    esbmc.cmdline "exe" [] ["f.c"] none
      = some [some "exe", some "-p", none, some "f.c"]
    ∧ none ∈ [some "exe", some "-p", (none : Option String), some "f.c"] := by decide

/-- C5 (amended): only the Ultimate adapter validates its vectors
(`__assert_cmdline` guards every returning branch): whenever Ultimate's
`cmdline` returns an argument vector, every element is a non-empty string. -/
theorem claimC5_ultimate_nonempty_amended (isSvcomp17 requiresData : Bool) (api : Nat)
    (javaPath : String) (isfile : String → Bool) (executable : String)
    (options0 tasks : List String) (propertyfile0 : Option String) (memlimit : Option Nat)
    (v : List String)
    (h : (ultimate.cmdline isSvcomp17 requiresData api javaPath isfile executable options0
        tasks propertyfile0 memlimit).2 = .ok v) :
    ∀ s ∈ v, s ≠ "" := by
  intro s hs
  have h' : ultimate.cmdlineResult isSvcomp17 requiresData api javaPath isfile executable
      options0 tasks propertyfile0 memlimit = .ok v := h
  unfold ultimate.cmdlineResult at h'
  cases hraw : ultimate.cmdlineRaw isSvcomp17 requiresData api javaPath isfile executable
      (ultimate.cmdlineOptionsAfter options0) tasks
      (ultimate.cmdlinePropertyAfter options0 propertyfile0) memlimit with
  | error e => rw [hraw] at h'; exact absurd h' (by simp)
  | ok u =>
    rw [hraw] at h'
    have h'' : ultimate.assert_cmdline u = .ok v := h'
    unfold ultimate.assert_cmdline at h''
    split at h''
    next hall =>
      obtain rfl : u = v := by simpa using h''
      simpa using List.all_eq_true.mp hall s hs
    next => exact absurd h'' (by simp)

/-- C5 witness: the amended statement at a concrete successful invocation
(property-file mode). -/
theorem claimC5_witness : ("--spec" : String) ≠ "" :=
  claimC5_ultimate_nonempty_amended false false 2 "java" (fun _ => false) "exe" []
    ["f.c"] (some "p.prp") none ["exe", "--spec", "p.prp", "--file", "f.c"] rfl
    "--spec" (by decide)

/-- C7: the three negotiation/build failures are raised as distinct
exceptions, never returned as a default value: no launcher jar on disk makes
`_get_current_launcher_jar` raise `FileNotFoundError`; both API probes
failing makes `_ultimate_version` raise `BenchExecException`; and a
non-SVCOMP17 request with no property file and no `-tc`/`--toolchain`
option makes `cmdline` raise `UnsupportedFeatureException`. -/
theorem claimC7_ultimate_distinct_failures :
    (∀ (isfile : String → Bool) (executable : String),
      (∀ jar ∈ ultimate._LAUNCHER_JARS,
        isfile (ultimate.pathJoin (ultimate.dirname executable) jar) = false) →
      ultimate._get_current_launcher_jar isfile executable = .error .fileNotFound)
    ∧ (∀ (isfile : String → Bool) (executable : String) (probe : Nat → String)
        (j : String),
      ultimate._get_current_launcher_jar isfile executable = .ok j →
      probe 2 = "" → probe 1 = "" →
      ultimate._ultimate_version isfile executable probe = .error .benchExecException)
    ∧ (∀ (requiresData : Bool) (api : Nat) (javaPath : String) (isfile : String → Bool)
        (executable : String) (options0 tasks : List String) (memlimit : Option Nat),
      "-tc" ∉ options0 → "--toolchain" ∉ options0 →
      (ultimate.cmdline false requiresData api javaPath isfile executable options0 tasks
        none memlimit).2 = .error .unsupportedFeature) := by
  refine ⟨?_, ?_, ?_⟩
  · intro isfile executable hnone
    have h0 : isfile (ultimate.pathJoin (ultimate.dirname executable)
        "plugins/org.eclipse.equinox.launcher_1.3.100.v20150511-1540.jar") = false :=
      hnone _ (by simp [ultimate._LAUNCHER_JARS])
    simp [ultimate._get_current_launcher_jar, ultimate._LAUNCHER_JARS, ultimate.findJar, h0]
  · intro isfile executable probe j hjar h2 h1
    unfold ultimate._ultimate_version
    rw [hjar]
    simp [h2, h1]
  · intro rd api java isfile exe options0 tasks mem htc htool
    have hopt : "-tc" ∉ ultimate.cmdlineOptionsAfter options0 := by
      unfold ultimate.cmdlineOptionsAfter
      split
      · intro hmem'
        exact htc (List.mem_of_mem_erase hmem')
      · exact htc
    have hopt2 : "--toolchain" ∉ ultimate.cmdlineOptionsAfter options0 := by
      unfold ultimate.cmdlineOptionsAfter
      split
      · intro hmem'
        exact htool (List.mem_of_mem_erase hmem')
      · exact htool
    have hor : ¬("-tc" ∈ ultimate.cmdlineOptionsAfter options0
        ∨ "--toolchain" ∈ ultimate.cmdlineOptionsAfter options0) :=
      not_or.mpr ⟨hopt, hopt2⟩
    show ultimate.cmdlineResult false rd api java isfile exe options0 tasks none mem
      = .error .unsupportedFeature
    simp only [ultimate.cmdlineResult, ultimate.cmdlineRaw, ultimate.cmdlinePropertyAfter,
      ite_self]
    rw [if_neg hor]
    rfl

/-- C7 witness: the three distinct failures at concrete inputs. -/
theorem claimC7_witness :
    ultimate._get_current_launcher_jar (fun _ => false) "exe" = .error .fileNotFound
    ∧ ultimate._ultimate_version (fun _ => true) "exe" (fun _ => "")
      = .error .benchExecException
    ∧ (ultimate.cmdline false false 2 "java" (fun _ => true) "exe" [] [] none none).2
      = .error .unsupportedFeature :=
  ⟨claimC7_ultimate_distinct_failures.1 (fun _ => false) "exe" (fun _ _ => rfl),
   claimC7_ultimate_distinct_failures.2.1 (fun _ => true) "exe" (fun _ => "")
     "plugins/org.eclipse.equinox.launcher_1.3.100.v20150511-1540.jar" rfl rfl rfl,
   claimC7_ultimate_distinct_failures.2.2 false 2 "java" (fun _ => true) "exe" [] [] none
     (by decide) (by decide)⟩

/-- C9 counterexample: Ultimate's `cmdline` mutates the caller's options
list when it contains `--force-no-wrapper`: `options.remove` deletes the
first occurrence, so after the call (which returns normally) the caller's
list no longer holds the same elements. -/
theorem claimC9_counterexample :
    (ultimate.cmdline false false 2 "java" (fun _ => true) "exe"
        ["--force-no-wrapper", "-tc"] [] none none).1 = ["-tc"]
    ∧ (["-tc"] : List String) ≠ ["--force-no-wrapper", "-tc"]
    ∧ (ultimate.cmdline false false 2 "java" (fun _ => true) "exe"
        ["--force-no-wrapper", "-tc"] [] none none).2
      = .ok ["java", "-Xss4m", "-jar",
          "plugins/org.eclipse.equinox.launcher_1.3.100.v20150511-1540.jar",
          "-data", "data", "-tc"] :=
  ⟨by decide, by decide, rfl⟩

/-- C9 (amended): when `--force-no-wrapper` is not among the options,
Ultimate's `cmdline` leaves the caller's options list unchanged (the `-ea`
handling rebinds a fresh list and does not mutate); with
`--force-no-wrapper` present the list is mutated by removing that flag's
first occurrence. -/
theorem claimC9_options_preserved_amended (isSvcomp17 requiresData : Bool) (api : Nat)
    (javaPath : String) (isfile : String → Bool) (executable : String)
    (options0 tasks : List String) (propertyfile0 : Option String) (memlimit : Option Nat)
    (h : "--force-no-wrapper" ∉ options0) :
    (ultimate.cmdline isSvcomp17 requiresData api javaPath isfile executable options0
      tasks propertyfile0 memlimit).1 = options0 := by
  show ultimate.cmdlineOptionsAfter options0 = options0
  unfold ultimate.cmdlineOptionsAfter
  rw [if_neg h]

/-- C9 witness: an options list containing `-ea` (but no
`--force-no-wrapper`) is preserved. -/
theorem claimC9_witness :
    (ultimate.cmdline false false 2 "java" (fun _ => true) "exe" ["-ea", "-tc"] [] none
      none).1 = ["-ea", "-tc"] :=
  claimC9_options_preserved_amended false false 2 "java" (fun _ => true) "exe"
    ["-ea", "-tc"] [] none none (by decide)

